import Mathlib

/-!
Verification of the Tenor Bundle Evaluator contract.

The repository slice holds the Python SDK type declarations
(`sdks/python/python/tenor/types.py`), the SDK test suite
(`sdks/python/tests/test_evaluator.py`) and the conformance runner
(`sdks/conformance/runners/python_runner.py`); the evaluator core itself
(RuleEngine, ActionSpaceComputer, FlowSimulator) is not in the slice, so the
definitions below are modelled from the specification (§4.2-§4.4, §6) and
checked against the behaviour the tests pin down.
-/

namespace Tenor

/-- Modelled from the spec: runtime values of the condition language — a
closed tagged union of boolean, number, monetary amount+currency (exact
decimal, never floating point) and string. -/
inductive Value where
  | vbool : Bool → Value
  | vnum : Rat → Value
  | vmoney : Rat → String → Value
  | vstr : String → Value
deriving Repr, DecidableEq

/-- Modelled from the spec: the six binary comparison operators. -/
inductive CmpOp where
  | ceq | cne | clt | cle | cgt | cge
deriving Repr, DecidableEq

/-- Modelled from the spec: the closed condition-expression grammar — literal
values, fact references, verdict-presence/value references, binary
comparisons, and boolean and/or composition. -/
inductive Expr where
  | lit : Value → Expr
  | factRef : String → Expr
  | verdictPresent : String → Expr
  | verdictVal : String → Expr
  | cmp : Expr → CmpOp → Expr → Expr
  | band : Expr → Expr → Expr
  | bor : Expr → Expr → Expr
deriving Repr, DecidableEq

/-- Modelled from the spec: call-time error kinds of the evaluator
(`MissingFact`, `TypeMismatch`, `FlowNotFound`, `FlowExecutionError`; a
verdict-value reference to an absent verdict type is not pinned down by the
available fixtures and gets its own kind). -/
inductive EvalError where
  | missingFact : String → EvalError
  | typeMismatch : EvalError
  | missingVerdict : String → EvalError
  | flowNotFound : String → EvalError
  | flowExecutionError : EvalError
deriving Repr, DecidableEq

/-- FactSet: caller-supplied mapping from fact id to typed value. -/
def FactSet := List (String × Value)

def lookupFact (facts : FactSet) (id : String) : Option Value :=
  (List.find? (fun p => p.1 == id) facts).map (·.2)

/-- Verdict with provenance, mirroring `tenor/types.py` `Verdict` /
`VerdictProvenance`. -/
structure Verdict where
  vtype : String
  payload : Value
  rule : String
  stratum : Nat
  facts_used : List String
  verdicts_used : List String
deriving Repr, DecidableEq

def ratCmp : CmpOp → Rat → Rat → Bool
  | .ceq, a, b => a == b
  | .cne, a, b => a != b
  | .clt, a, b => decide (a < b)
  | .cle, a, b => decide (a ≤ b)
  | .cgt, a, b => decide (b < a)
  | .cge, a, b => decide (b ≤ a)

def strCmp : CmpOp → String → String → Bool
  | .ceq, a, b => a == b
  | .cne, a, b => a != b
  | .clt, a, b => decide (a < b)
  | .cle, a, b => decide (a ≤ b)
  | .cgt, a, b => decide (b < a)
  | .cge, a, b => decide (b ≤ a)

/-- Modelled from the spec: typed comparison. Operands of incompatible
declared types fail with `TypeMismatch`; booleans only support equality;
monetary comparison checks currency codes for equality before magnitude. -/
def compareValues : Value → CmpOp → Value → Except EvalError Bool
  | .vbool a, .ceq, .vbool b => .ok (a == b)
  | .vbool a, .cne, .vbool b => .ok (a != b)
  | .vbool _, _, .vbool _ => .error .typeMismatch
  | .vnum a, op, .vnum b => .ok (ratCmp op a b)
  | .vmoney a ca, .ceq, .vmoney b cb => .ok (ca == cb && a == b)
  | .vmoney a ca, .cne, .vmoney b cb => .ok (!(ca == cb && a == b))
  | .vmoney a ca, op, .vmoney b cb =>
      if ca == cb then .ok (ratCmp op a b) else .error .typeMismatch
  | .vstr a, op, .vstr b => .ok (strCmp op a b)
  | _, _, _ => .error .typeMismatch

def asBool : Value → Except EvalError Bool
  | .vbool b => .ok b
  | _ => .error .typeMismatch

/-- Modelled from the spec: expression evaluation against a FactSet and the
verdicts visible from strictly lower strata. Returns the value together with
the fact ids and verdict types actually referenced. A reference to a fact id
absent from the FactSet fails the whole call with `MissingFact`. -/
def evalExpr (facts : FactSet) (verdicts : List Verdict) :
    Expr → Except EvalError (Value × List String × List String)
  | .lit v => .ok (v, [], [])
  | .factRef f =>
      match lookupFact facts f with
      | some v => .ok (v, [f], [])
      | none => .error (.missingFact f)
  | .verdictPresent t =>
      .ok (.vbool (verdicts.any (fun v => v.vtype == t)), [], [t])
  | .verdictVal t =>
      match List.find? (fun v => v.vtype == t) verdicts with
      | some v => .ok (v.payload, [], [t])
      | none => .error (.missingVerdict t)
  | .cmp l op r => do
      let (lv, lf, lvt) ← evalExpr facts verdicts l
      let (rv, rf, rvt) ← evalExpr facts verdicts r
      let b ← compareValues lv op rv
      .ok (.vbool b, lf ++ rf, lvt ++ rvt)
  | .band l r => do
      let (lv, lf, lvt) ← evalExpr facts verdicts l
      let (rv, rf, rvt) ← evalExpr facts verdicts r
      let a ← asBool lv
      let c ← asBool rv
      .ok (.vbool (a && c), lf ++ rf, lvt ++ rvt)
  | .bor l r => do
      let (lv, lf, lvt) ← evalExpr facts verdicts l
      let (rv, rf, rvt) ← evalExpr facts verdicts r
      let a ← asBool lv
      let c ← asBool rv
      .ok (.vbool (a || c), lf ++ rf, lvt ++ rvt)

/-- Insert a string into a sorted, duplicate-free list. -/
def insertStr (s : String) : List String → List String
  | [] => [s]
  | t :: ts =>
      if s = t then t :: ts
      else if s < t then s :: t :: ts
      else t :: insertStr s ts

/-- Sorted, duplicate-free view of a list of fact ids. -/
def sortDedup (l : List String) : List String := l.foldr insertStr []

/-- Rule construct: stratum, boolean condition, produced verdict type and
payload (bundle JSON shape `{stratum, body:{when, produce}}`). -/
structure Rule where
  id : String
  stratum : Nat
  cond : Expr
  verdict_type : String
  payload : Value
deriving Repr, DecidableEq

/-- Modelled from the spec: a rule whose condition evaluates true produces
exactly one verdict carrying the rule id, its stratum, the sorted set of fact
ids actually referenced, and the verdict types consulted; a false condition
produces none. -/
def evalRule (facts : FactSet) (lower : List Verdict) (r : Rule) :
    Except EvalError (Option Verdict) := do
  let (v, fs, vts) ← evalExpr facts lower r.cond
  let b ← asBool v
  if b then
    .ok (some { vtype := r.verdict_type, payload := r.payload, rule := r.id,
                stratum := r.stratum, facts_used := sortDedup fs,
                verdicts_used := vts.dedup })
  else .ok none

/-- Modelled from the spec: every rule of one stratum is evaluated
independently against the same lower-strata verdict environment. -/
def evalStratum (facts : FactSet) (lower : List Verdict) :
    List Rule → Except EvalError (List Verdict)
  | [] => .ok []
  | r :: rs => do
      let o ← evalRule facts lower r
      let rest ← evalStratum facts lower rs
      match o with
      | some v => .ok (v :: rest)
      | none => .ok rest

/-- The ascending sequence of distinct stratum numbers, precomputed as the
spec's load-time topological ordering. -/
def strataList (rules : List Rule) : List Nat :=
  List.insertionSort (· ≤ ·) (rules.map Rule.stratum).dedup

/-- Modelled from the spec: process strata in ascending numeric order;
same-stratum verdicts are never visible to other same-stratum rules. -/
def evalStrata (facts : FactSet) (rules : List Rule) :
    List Verdict → List Nat → Except EvalError (List Verdict)
  | acc, [] => .ok acc
  | acc, s :: ss => do
      let new ← evalStratum facts acc (rules.filter (fun r => r.stratum == s))
      evalStrata facts rules (acc ++ new) ss

/-- RuleEngine core: `evaluate` over a rule list. -/
def evaluateRules (rules : List Rule) (facts : FactSet) :
    Except EvalError (List Verdict) :=
  evalStrata facts rules [] (strataList rules)

/-- Fact construct (external typed input). -/
structure Fact where
  id : String
  system : String
  field : String
  base : String
deriving Repr, DecidableEq

/-- Entity construct: finite state machine. -/
structure Entity where
  id : String
  initial : String
  states : List String
  transitions : List (String × String)
deriving Repr, DecidableEq

/-- One entity effect of an operation (`{entity_id, from, to}`). -/
structure Effect where
  entity_id : String
  from_state : String
  to_state : String
deriving Repr, DecidableEq

/-- Operation construct. -/
structure Operation where
  id : String
  allowed_personas : List String
  precondition : Expr
  effects : List Effect
  error_contract : List String
deriving Repr, DecidableEq

/-- Success outcome of a step: terminal outcome or next step reference. -/
inductive StepSuccess where
  | terminal : String → StepSuccess
  | next : String → StepSuccess
deriving Repr, DecidableEq

/-- OperationStep of a flow. -/
structure Step where
  id : String
  op : String
  persona : String
  on_failure_outcome : String
  success : StepSuccess
deriving Repr, DecidableEq

/-- Flow construct. -/
structure Flow where
  id : String
  entry : String
  snapshot : String
  steps : List Step
deriving Repr, DecidableEq

/-- Bundle: immutable policy definition, indexed by construct kind. -/
structure Bundle where
  id : String
  tenor_version : String
  facts : List Fact
  entities : List Entity
  rules : List Rule
  operations : List Operation
  flows : List Flow
deriving Repr, DecidableEq

/-- RuleEngine contract: `evaluate(facts) -> VerdictSet`. -/
def evaluate (b : Bundle) (facts : FactSet) : Except EvalError (List Verdict) :=
  evaluateRules b.rules facts

/-- EntityStateMap: caller-supplied mapping entity id → current state. -/
def EntityStateMap := List (String × String)

/-- Modelled from the spec: an entity's current state, defaulting entities
absent from the map to their declared initial state. -/
def currentState (b : Bundle) (es : EntityStateMap) (eid : String) : Option String :=
  match (List.find? (fun p => p.1 == eid) es).map (·.2) with
  | some s => some s
  | none => (List.find? (fun e => e.id == eid) b.entities).map (·.initial)

/-- Flat verdict summary, mirroring `tenor/types.py` `VerdictSummary`. -/
structure VerdictSummary where
  verdict_type : String
  payload : Value
  producing_rule : String
  stratum : Nat
deriving Repr, DecidableEq

def toSummary (v : Verdict) : VerdictSummary :=
  { verdict_type := v.vtype, payload := v.payload,
    producing_rule := v.rule, stratum := v.stratum }

/-- Affected-entity snapshot, mirroring `tenor/types.py` `EntitySummary`. -/
structure EntitySummary where
  entity_id : String
  current_state : String
  possible_transitions : List String
deriving Repr, DecidableEq

/-- Modelled from the spec: snapshot of an affected entity's current state and
declared transitions (those leaving the current state). -/
def entitySnapshot (b : Bundle) (es : EntityStateMap) (eid : String) : EntitySummary :=
  let cur := (currentState b es eid).getD ""
  { entity_id := eid, current_state := cur,
    possible_transitions :=
      match List.find? (fun e => e.id == eid) b.entities with
      | some ent => (ent.transitions.filter (fun t => t.1 == cur)).map (·.2)
      | none => [] }

/-- The three structured gate-failure reasons. -/
inductive BlockReason where
  | personaNotAuthorized
  | preconditionNotMet
  | entityNotInSourceState
deriving Repr, DecidableEq

/-- Action, mirroring `tenor/types.py` `Action` (the `description` field is
presentation-only and not pinned down by the spec; it is modelled as empty). -/
structure Action where
  flow_id : String
  persona_id : String
  entry_operation_id : String
  enabling_verdicts : List VerdictSummary
  affected_entities : List EntitySummary
  description : String
deriving Repr, DecidableEq

/-- BlockedAction, mirroring `tenor/types.py` `BlockedAction`: exactly one
structured reason. -/
structure BlockedAction where
  flow_id : String
  reason : BlockReason
deriving Repr, DecidableEq

/-- ActionSpace, mirroring `tenor/types.py` `ActionSpace`. -/
structure ActionSpace where
  persona_id : String
  actions : List Action
  current_verdicts : List VerdictSummary
  blocked_actions : List BlockedAction
deriving Repr, DecidableEq

/-- Modelled from the spec: the three gates in fixed order, stopping at the
first failure — persona authorization, then precondition over verdicts, then
entity source state (against `es`, defaulted to declared initial states).
Returns the first failed gate's reason (or none) and the verdict types the
precondition consulted. -/
def checkGates (b : Bundle) (facts : FactSet) (verdicts : List Verdict)
    (es : EntityStateMap) (persona : String) (op : Operation) :
    Except EvalError (Option BlockReason × List String) :=
  if persona ∈ op.allowed_personas then do
    let (v, _, vts) ← evalExpr facts verdicts op.precondition
    let ok ← asBool v
    if ok then
      if op.effects.all (fun e => currentState b es e.entity_id == some e.from_state) then
        .ok (none, vts)
      else .ok (some .entityNotInSourceState, vts)
    else .ok (some .preconditionNotMet, vts)
  else .ok (some .personaNotAuthorized, [])

/-- Modelled from the spec: one flow's gating — resolve the entry operation
(the operation referenced by the entry step) and turn the flow into either an
`Action` (carrying the subset of `current_verdicts` that satisfied the
precondition gate and affected-entity snapshots) or one `BlockedAction` with
the first failed gate's reason. -/
def flowGate (b : Bundle) (facts : FactSet) (verdicts : List Verdict)
    (cvs : List VerdictSummary) (es : EntityStateMap) (persona : String)
    (f : Flow) : Except EvalError (Action ⊕ BlockedAction) :=
  match List.find? (fun st => st.id == f.entry) f.steps with
  | none => .error .flowExecutionError
  | some st =>
    match List.find? (fun o => o.id == st.op) b.operations with
    | none => .error .flowExecutionError
    | some op => do
      let (blk, vts) ← checkGates b facts verdicts es persona op
      match blk with
      | some reason => .ok (.inr { flow_id := f.id, reason := reason })
      | none => .ok (.inl
          { flow_id := f.id, persona_id := persona, entry_operation_id := op.id,
            enabling_verdicts := cvs.filter (fun s => s.verdict_type ∈ vts),
            affected_entities :=
              ((op.effects.map (·.entity_id)).dedup).map (entitySnapshot b es),
            description := "" })

/-- ActionSpaceComputer contract: calls `evaluate(facts)` exactly once,
flattens it into `current_verdicts`, and gates every flow independently. -/
def computeActionSpace (b : Bundle) (facts : FactSet) (es : EntityStateMap)
    (persona : String) : Except EvalError ActionSpace := do
  let verdicts ← evaluate b facts
  let cvs := verdicts.map toSummary
  let gated ← b.flows.mapM (flowGate b facts verdicts cvs es persona)
  .ok { persona_id := persona, current_verdicts := cvs,
        actions := gated.filterMap Sum.getLeft?,
        blocked_actions := gated.filterMap Sum.getRight? }

/-- StepResult, mirroring `tenor/types.py` `StepResult`. -/
structure StepResult where
  step_id : String
  step_type : String
  result : String
deriving Repr, DecidableEq

/-- EntityStateChange, mirroring `tenor/types.py` `EntityStateChange`. -/
structure EntityStateChange where
  entity_id : String
  from_state : String
  to_state : String
deriving Repr, DecidableEq

/-- FlowResult, mirroring `tenor/types.py` `FlowResult` — including its
`verdicts` field beyond the five the spec's §3 lists. -/
structure FlowResult where
  flow_id : String
  persona : String
  outcome : String
  path : List StepResult
  would_transition : List EntityStateChange
  verdicts : List Verdict
deriving Repr, DecidableEq

/-- Apply every effect of an operation to the private working state copy. -/
def applyEffects (es : EntityStateMap) (effs : List Effect) : EntityStateMap :=
  effs.foldl (fun m e => (e.entity_id, e.to_state) :: m) es

/-- Modelled from the spec: the fixed ceiling bounding the flow walk. -/
def maxFlowSteps : Nat := 10000

/-- Modelled from the spec: the bounded walk of the flow's step graph. Each
OperationStep applies the three gates against the current working state using
the shared verdict context; on success it applies every effect to the working
copy, appends one `EntityStateChange` per effect, and follows the success
transition; on any gate failure it records a failure `StepResult` and follows
the declared failure transition. Exceeding the bound fails with
`FlowExecutionError`. -/
def walk (b : Bundle) (facts : FactSet) (verdicts : List Verdict)
    (persona : String) (f : Flow) :
    Nat → String → EntityStateMap → List StepResult → List EntityStateChange →
    Except EvalError (String × List StepResult × List EntityStateChange)
  | 0, _, _, _, _ => .error .flowExecutionError
  | fuel + 1, stepId, ws, path, changes =>
    match List.find? (fun st => st.id == stepId) f.steps with
    | none => .error .flowExecutionError
    | some st =>
      match List.find? (fun o => o.id == st.op) b.operations with
      | none => .error .flowExecutionError
      | some op => do
        let (blk, _) ← checkGates b facts verdicts ws persona op
        match blk with
        | some _ =>
            .ok (st.on_failure_outcome,
                 path ++ [{ step_id := st.id, step_type := "OperationStep",
                            result := "failure" }],
                 changes)
        | none =>
            let ws2 := applyEffects ws op.effects
            let changes2 := changes ++ op.effects.map
              (fun e => { entity_id := e.entity_id, from_state := e.from_state,
                          to_state := e.to_state })
            let path2 := path ++ [{ step_id := st.id,
                                    step_type := "OperationStep",
                                    result := "success" }]
            match st.success with
            | .terminal outcome => .ok (outcome, path2, changes2)
            | .next nid => walk b facts verdicts persona f fuel nid ws2 path2 changes2

/-- FlowSimulator contract: `executeFlow(flowId, facts, entityStates,
personaId) -> FlowResult`; fails `FlowNotFound` for an undeclared flow id,
evaluates facts once for a shared verdict context, and walks the step graph
from the entry step over a private working copy of the entity states. -/
def executeFlow (b : Bundle) (flowId : String) (facts : FactSet)
    (es : EntityStateMap) (persona : String) : Except EvalError FlowResult :=
  match List.find? (fun f => f.id == flowId) b.flows with
  | none => .error (.flowNotFound flowId)
  | some f => do
    let verdicts ← evaluate b facts
    let (outcome, path, changes) ←
      walk b facts verdicts persona f maxFlowSteps f.entry es [] []
    .ok { flow_id := f.id, persona := persona, outcome := outcome,
          path := path, would_transition := changes, verdicts := verdicts }

/-- The `BASIC_BUNDLE` fixture of `tests/test_evaluator.py` (Scenario A of the
spec): fact `is_active`, entity `Order{pending→approved}`, rule `check_active`
(stratum 0, produces `account_active` when `is_active = true`), operation
`approve_order` (persona `admin`, precondition `verdict_present
account_active`, effect `Order: pending→approved`), flow `approval_flow`. -/
def scenarioA : Bundle :=
  { id := "entity_operation_basic", tenor_version := "1.0.0",
    facts := [{ id := "is_active", system := "account", field := "active",
                base := "Bool" }],
    entities := [{ id := "Order", initial := "pending",
                   states := ["pending", "approved"],
                   transitions := [("pending", "approved")] }],
    rules := [{ id := "check_active", stratum := 0,
                cond := .cmp (.factRef "is_active") .ceq (.lit (.vbool true)),
                verdict_type := "account_active", payload := .vbool true }],
    operations := [{ id := "approve_order", allowed_personas := ["admin"],
                     precondition := .verdictPresent "account_active",
                     effects := [{ entity_id := "Order",
                                   from_state := "pending",
                                   to_state := "approved" }],
                     error_contract := ["precondition_failed"] }],
    flows := [{ id := "approval_flow", entry := "step_approve",
                snapshot := "at_initiation",
                steps := [{ id := "step_approve", op := "approve_order",
                            persona := "admin",
                            on_failure_outcome := "approval_failed",
                            success := .terminal "order_approved" }] }] }

/-- A bundle with two stratum-0 rules that both fire and emit the same verdict
type and payload, to check that duplicate verdicts from distinct rules are
retained, never deduplicated. -/
def dupBundle : Bundle :=
  { id := "dup", tenor_version := "1.0.0",
    facts := [], entities := [],
    rules := [{ id := "r1", stratum := 0, cond := .lit (.vbool true),
                verdict_type := "dup_type", payload := .vbool true },
              { id := "r2", stratum := 0, cond := .lit (.vbool true),
                verdict_type := "dup_type", payload := .vbool true }],
    operations := [], flows := [] }

/-- The taxonomy of error kinds a call can surface (§7): load-time versus
call-time. -/
inductive ErrorKind where
  | bundleInvalid
  | bundleSchemaError
  | missingFact
  | typeMismatch
  | flowNotFound
  | flowExecutionError
deriving Repr, DecidableEq

/-- The Python exception classes the SDK raises. -/
inductive PyExceptionClass where
  | valueError
  | runtimeError
deriving Repr, DecidableEq

/-- Whether an error kind is a load-time failure (§7's taxonomy). -/
def ErrorKind.isLoadTime : ErrorKind → Bool
  | .bundleInvalid => true
  | .bundleSchemaError => true
  | _ => false

/-- Modelled from the spec: the exception class the Python binding (absent
from this slice; pinned down by `tests/test_evaluator.py`) raises for each
error kind — `ValueError` for the load-time failures of `from_bundle_json`,
`RuntimeError` for the call-time failures of `evaluate`/`execute_flow`. -/
def raisedException : ErrorKind → PyExceptionClass
  | .bundleInvalid => .valueError
  | .bundleSchemaError => .valueError
  | .missingFact => .runtimeError
  | .typeMismatch => .runtimeError
  | .flowNotFound => .runtimeError
  | .flowExecutionError => .runtimeError

/-- The error kind of a call-time `EvalError`. -/
def EvalError.kind : EvalError → ErrorKind
  | .missingFact _ => .missingFact
  | .typeMismatch => .typeMismatch
  | .missingVerdict _ => .typeMismatch
  | .flowNotFound _ => .flowNotFound
  | .flowExecutionError => .flowExecutionError

/-! ### Helper lemmas about the `Except` monad -/

@[simp]
lemma exceptBind_ok {ε α β : Type} (a : α) (f : α → Except ε β) :
    (Except.ok a >>= f) = f a := rfl

@[simp]
lemma exceptBind_error {ε α β : Type} (e : ε) (f : α → Except ε β) :
    ((Except.error e : Except ε α) >>= f) = Except.error e := rfl

@[simp]
lemma exceptPure_eq_ok {ε α : Type} (a : α) :
    (pure a : Except ε α) = Except.ok a := rfl

/-! ### Helper lemmas about the RuleEngine -/

/-- A verdict produced for a true rule condition is fully determined by the
rule and the fact ids / verdict types the condition referenced. -/
lemma evalRule_ok_some {facts : FactSet} {lower : List Verdict} {r : Rule}
    {v : Verdict} (h : evalRule facts lower r = .ok (some v)) :
    ∃ val fs vts, evalExpr facts lower r.cond = .ok (val, fs, vts) ∧
      asBool val = .ok true ∧
      v = { vtype := r.verdict_type, payload := r.payload, rule := r.id,
            stratum := r.stratum, facts_used := sortDedup fs,
            verdicts_used := vts.dedup } := by
  unfold evalRule at h
  cases he : evalExpr facts lower r.cond with
  | error e => rw [he] at h; simp at h
  | ok t =>
    obtain ⟨val, fs, vts⟩ := t
    rw [he] at h
    simp only [exceptBind_ok] at h
    cases hb : asBool val with
    | error e => rw [hb] at h; simp at h
    | ok b =>
      rw [hb] at h
      simp only [exceptBind_ok] at h
      cases b with
      | false => simp at h
      | true =>
        simp at h
        exact ⟨val, fs, vts, rfl, hb, h.symm⟩

/-- Every verdict a stratum produces comes from some rule of that stratum. -/
lemma evalStratum_mem {facts : FactSet} {acc : List Verdict} :
    ∀ {rs : List Rule} {new : List Verdict},
      evalStratum facts acc rs = .ok new → ∀ v ∈ new,
        ∃ r, r ∈ rs ∧ evalRule facts acc r = .ok (some v) := by
  intro rs
  induction rs with
  | nil =>
    intro new h v hv
    simp [evalStratum] at h
    subst h
    simp at hv
  | cons r rs ih =>
    intro new h v hv
    unfold evalStratum at h
    cases hr : evalRule facts acc r with
    | error e => rw [hr] at h; simp at h
    | ok o =>
      rw [hr] at h
      cases hrest : evalStratum facts acc rs with
      | error e => rw [hrest] at h; simp at h
      | ok rest =>
        rw [hrest] at h
        cases o with
        | none =>
          simp at h
          subst h
          obtain ⟨r', hr', he'⟩ := ih hrest v hv
          exact ⟨r', List.mem_cons_of_mem _ hr', he'⟩
        | some w =>
          simp at h
          subst h
          rcases List.mem_cons.mp hv with hvw | hvrest
          · exact ⟨r, List.mem_cons_self _ _, by rw [hr, hvw]⟩
          · obtain ⟨r', hr', he'⟩ := ih hrest v hvrest
            exact ⟨r', List.mem_cons_of_mem _ hr', he'⟩

/-- Within one stratum, a rule with a distinct id from every other rule of the
stratum contributes exactly its own verdict (one if its condition is true,
none if false) to the stratum's output. -/
lemma evalStratum_filter {facts : FactSet} {acc : List Verdict} :
    ∀ {rs : List Rule} {new : List Verdict},
      (rs.map Rule.id).Nodup →
      evalStratum facts acc rs = .ok new →
      ∀ {r : Rule}, r ∈ rs →
        (∀ v, evalRule facts acc r = .ok (some v) →
          new.filter (fun w => w.rule == r.id) = [v]) ∧
        (evalRule facts acc r = .ok none →
          new.filter (fun w => w.rule == r.id) = []) := by
  intro rs
  induction rs with
  | nil => intro new _ _ r hr; simp at hr
  | cons r0 rs ih =>
    intro new hnd h r hr
    rw [List.map_cons, List.nodup_cons] at hnd
    obtain ⟨hnotin, hnd'⟩ := hnd
    unfold evalStratum at h
    cases hr0 : evalRule facts acc r0 with
    | error e => rw [hr0] at h; simp at h
    | ok o =>
      rw [hr0] at h
      cases hrest : evalStratum facts acc rs with
      | error e => rw [hrest] at h; simp at h
      | ok rest =>
        rw [hrest] at h
        rcases List.mem_cons.mp hr with hre | hrs
        · -- r is the head rule r0
          subst hre
          have hrest_filter : rest.filter (fun w => w.rule == r.id) = [] := by
            rw [List.filter_eq_nil_iff]
            intro w hw
            obtain ⟨r', hr', he'⟩ := evalStratum_mem hrest w hw
            obtain ⟨_, _, _, _, _, hv⟩ := evalRule_ok_some he'
            intro hbeq
            have : w.rule = r.id := by simpa using hbeq
            have : r'.id = r.id := by rw [hv] at this; simpa using this
            exact hnotin (this ▸ List.mem_map_of_mem Rule.id hr')
          cases o with
          | none =>
            simp at h
            subst h
            constructor
            · intro v hv; rw [hr0] at hv; simp at hv
            · intro _; exact hrest_filter
          | some w =>
            simp at h
            subst h
            constructor
            · intro v hv
              rw [hr0] at hv
              simp at hv
              subst hv
              obtain ⟨_, _, _, _, _, hw⟩ := evalRule_ok_some hr0
              rw [List.filter_cons]
              have : (w.rule == r.id) = true := by rw [hw]; simp
              rw [if_pos this, hrest_filter]
            · intro hv; rw [hr0] at hv; simp at hv
        · -- r is in the tail
          have hid_ne : r0.id ≠ r.id := by
            intro hc
            exact hnotin (hc ▸ List.mem_map_of_mem Rule.id hrs)
          have tail := ih hnd' hrest hrs
          cases o with
          | none =>
            simp at h
            subst h
            exact tail
          | some w =>
            simp at h
            subst h
            obtain ⟨_, _, _, _, _, hw⟩ := evalRule_ok_some hr0
            have hdrop : (w.rule == r.id) = false := by
              rw [hw]
              simpa using hid_ne
            constructor
            · intro v hv
              rw [List.filter_cons, hdrop]
              simpa using tail.1 v hv
            · intro hv
              rw [List.filter_cons, hdrop]
              simpa using tail.2 hv

/-- Splitting the stratum sequence splits the evaluation. -/
lemma evalStrata_append {facts : FactSet} {rules : List Rule} :
    ∀ (ss1 ss2 : List Nat) (acc : List Verdict),
      evalStrata facts rules acc (ss1 ++ ss2) =
        (evalStrata facts rules acc ss1 >>= fun acc1 =>
          evalStrata facts rules acc1 ss2) := by
  intro ss1
  induction ss1 with
  | nil => intro ss2 acc; simp [evalStrata]
  | cons s ss ih =>
    intro ss2 acc
    rw [List.cons_append]
    have hcons : ∀ (acc' : List Verdict) (ss' : List Nat),
        evalStrata facts rules acc' (s :: ss') =
          (evalStratum facts acc' (rules.filter (fun r => r.stratum == s)) >>=
            fun new => evalStrata facts rules (acc' ++ new) ss') := fun _ _ => rfl
    rw [hcons acc (ss ++ ss2), hcons acc ss]
    cases hs : evalStratum facts acc (rules.filter (fun r => r.stratum == s)) with
    | error e => simp
    | ok new => simp [ih]

/-- Strata evaluation only appends: the output extends the accumulator, and
every appended verdict comes from a rule whose stratum is in the processed
sequence. -/
lemma evalStrata_decomp {facts : FactSet} {rules : List Rule} :
    ∀ {ss : List Nat} {acc out : List Verdict},
      evalStrata facts rules acc ss = .ok out →
      ∃ tail, out = acc ++ tail ∧
        ∀ v ∈ tail, ∃ r, r ∈ rules ∧ r.stratum ∈ ss ∧ v.rule = r.id := by
  intro ss
  induction ss with
  | nil =>
    intro acc out h
    simp [evalStrata] at h
    exact ⟨[], by simp [h.symm], by simp⟩
  | cons s ss ih =>
    intro acc out h
    unfold evalStrata at h
    cases hs : evalStratum facts acc (rules.filter (fun r => r.stratum == s)) with
    | error e => rw [hs] at h; simp at h
    | ok new =>
      rw [hs] at h
      simp only [exceptBind_ok] at h
      obtain ⟨tail, hout, htail⟩ := ih h
      refine ⟨new ++ tail, by rw [hout, List.append_assoc], ?_⟩
      intro v hv
      rcases List.mem_append.mp hv with hvn | hvt
      · obtain ⟨r, hrmem, hre⟩ := evalStratum_mem hs v hvn
        have hrr := List.mem_filter.mp hrmem
        obtain ⟨_, _, _, _, _, hveq⟩ := evalRule_ok_some hre
        refine ⟨r, hrr.1, ?_, by rw [hveq]⟩
        have : r.stratum = s := by simpa using hrr.2
        simp [this]
      · obtain ⟨r, hrmem, hrs, hrid⟩ := htail v hvt
        exact ⟨r, hrmem, List.mem_cons_of_mem _ hrs, hrid⟩

/-- A sorted duplicate-free list of naturals splits around any member into
the strictly smaller elements, the member, and the strictly larger ones. -/
lemma sorted_nodup_split :
    ∀ {l : List Nat}, l.Sorted (· ≤ ·) → l.Nodup → ∀ {s : Nat}, s ∈ l →
      l = l.filter (fun x => decide (x < s)) ++
          s :: l.filter (fun x => decide (s < x)) := by
  intro l
  induction l with
  | nil => intro _ _ s hs; simp at hs
  | cons a l ih =>
    intro hsort hnd s hs
    rw [List.sorted_cons] at hsort
    obtain ⟨hle, hsort'⟩ := hsort
    rw [List.nodup_cons] at hnd
    obtain ⟨hnotin, hnd'⟩ := hnd
    rcases List.mem_cons.mp hs with hsa | hsl
    · rw [hsa]
      have h1 : (a :: l).filter (fun x => decide (x < a)) = [] := by
        rw [List.filter_eq_nil_iff]
        intro x hx
        rcases List.mem_cons.mp hx with rfl | hxl
        · simp
        · have := hle x hxl
          simp only [decide_eq_true_eq]
          omega
      have h2 : l.filter (fun x => decide (a < x)) = l := by
        rw [List.filter_eq_self]
        intro x hx
        have h3 := hle x hx
        have h4 : x ≠ a := fun hc => hnotin (hc ▸ hx)
        simp only [decide_eq_true_eq]
        omega
      rw [h1, List.nil_append, List.filter_cons]
      simp [h2]
    · have hne : a ≠ s := fun hc => hnotin (hc ▸ hsl)
      have hlt : a < s := lt_of_le_of_ne (hle s hsl) hne
      have h1 : (a :: l).filter (fun x => decide (x < s)) =
          a :: l.filter (fun x => decide (x < s)) := by
        rw [List.filter_cons]
        simp [hlt]
      have h2 : (a :: l).filter (fun x => decide (s < x)) =
          l.filter (fun x => decide (s < x)) := by
        rw [List.filter_cons]
        have : ¬ s < a := by omega
        simp [this]
      rw [h1, h2, List.cons_append]
      exact congrArg (a :: ·) (ih hsort' hnd' hsl)

/-- The verdicts visible to a rule of stratum `s`: the output of all strictly
lower strata, processed in ascending order. -/
def lowerVerdicts (b : Bundle) (facts : FactSet) (s : Nat) :
    Except EvalError (List Verdict) :=
  evalStrata facts b.rules [] ((strataList b.rules).filter (fun x => decide (x < s)))

lemma strataList_sorted (rules : List Rule) :
    (strataList rules).Sorted (· ≤ ·) :=
  List.sorted_insertionSort _ _

lemma strataList_nodup (rules : List Rule) : (strataList rules).Nodup :=
  (List.perm_insertionSort _ _).nodup_iff.mpr (List.nodup_dedup _)

lemma mem_strataList {rules : List Rule} {r : Rule} (hr : r ∈ rules) :
    r.stratum ∈ strataList rules :=
  (List.perm_insertionSort _ _).mem_iff.mpr
    (List.mem_dedup.mpr (List.mem_map_of_mem Rule.stratum hr))

/-- Core RuleEngine property: in a bundle with unique rule ids, each rule
contributes exactly one verdict when its condition (evaluated against the
strictly-lower-strata verdicts) is true, and none when it is false; the
produced verdict carries the rule id, stratum, verdict type, payload, and the
sorted deduplicated fact ids the condition referenced. -/
lemma evaluate_rule_contribution {b : Bundle} {facts : FactSet}
    {vs : List Verdict} {r : Rule}
    (hnd : (b.rules.map Rule.id).Nodup) (hr : r ∈ b.rules)
    (hok : evaluate b facts = .ok vs) :
    ∃ lower, lowerVerdicts b facts r.stratum = .ok lower ∧
      (∀ v, evalRule facts lower r = .ok (some v) →
        vs.filter (fun w => w.rule == r.id) = [v]) ∧
      (evalRule facts lower r = .ok none →
        vs.filter (fun w => w.rule == r.id) = []) := by
  have hsplit := sorted_nodup_split (strataList_sorted b.rules)
    (strataList_nodup b.rules) (mem_strataList hr)
  unfold evaluate evaluateRules at hok
  rw [hsplit, evalStrata_append] at hok
  cases hlow : evalStrata facts b.rules []
      ((strataList b.rules).filter (fun x => decide (x < r.stratum))) with
  | error e => rw [hlow] at hok; simp at hok
  | ok lower =>
    rw [hlow] at hok
    simp only [exceptBind_ok] at hok
    refine ⟨lower, hlow, ?_⟩
    unfold evalStrata at hok
    cases hstr : evalStratum facts lower
        (b.rules.filter (fun r' => r'.stratum == r.stratum)) with
    | error e => rw [hstr] at hok; simp at hok
    | ok new =>
      rw [hstr] at hok
      simp only [exceptBind_ok] at hok
      obtain ⟨tail, hvs, htail⟩ := evalStrata_decomp hok
      -- id-injectivity over the bundle's rules
      have hinj := List.inj_on_of_nodup_map hnd
      -- the strictly lower strata never contribute a verdict with r's id
      have hlow_filter : lower.filter (fun w => w.rule == r.id) = [] := by
        rw [List.filter_eq_nil_iff]
        obtain ⟨tail0, hl0, htail0⟩ := evalStrata_decomp hlow
        intro w hw hbeq
        have hw' : w ∈ tail0 := by rw [hl0] at hw; simpa using hw
        obtain ⟨r', hr'mem, hr'str, hr'id⟩ := htail0 w hw'
        have hwid : w.rule = r.id := by simpa using hbeq
        have : r' = r := hinj hr'mem hr (by rw [← hr'id, hwid])
        subst this
        have := List.mem_filter.mp hr'str
        simp at this
      -- the strictly higher strata never contribute a verdict with r's id
      have htail_filter : tail.filter (fun w => w.rule == r.id) = [] := by
        rw [List.filter_eq_nil_iff]
        intro w hw hbeq
        obtain ⟨r', hr'mem, hr'str, hr'id⟩ := htail w hw
        have hwid : w.rule = r.id := by simpa using hbeq
        have : r' = r := hinj hr'mem hr (by rw [← hr'id, hwid])
        subst this
        have := List.mem_filter.mp hr'str
        simp at this
      -- within r's own stratum, `evalStratum_filter` settles the count
      have hnd_str : ((b.rules.filter (fun r' => r'.stratum == r.stratum)).map
          Rule.id).Nodup :=
        hnd.sublist ((List.filter_sublist b.rules).map Rule.id)
      have hr_str : r ∈ b.rules.filter (fun r' => r'.stratum == r.stratum) :=
        List.mem_filter.mpr ⟨hr, by simp⟩
      have hmain := evalStratum_filter hnd_str hstr hr_str
      constructor
      · intro v hv
        rw [hvs, List.filter_append, List.filter_append, hlow_filter,
          htail_filter, hmain.1 v hv]
        simp
      · intro hv
        rw [hvs, List.filter_append, List.filter_append, hlow_filter,
          htail_filter, hmain.2 hv]
        simp

/-! ### Helper lemmas about the ActionSpaceComputer -/

/-- Mapping with `mapM` over `Except` succeeds exactly when the function succeeds
pointwise, in order. -/
lemma mapM_ok_forall₂ {α β : Type} {f : α → Except EvalError β} :
    ∀ {l : List α} {out : List β}, l.mapM f = .ok out →
      List.Forall₂ (fun a b => f a = .ok b) l out := by
  intro l
  induction l with
  | nil =>
    intro out h
    rw [List.mapM_nil] at h
    simp at h
    subst h
    exact List.Forall₂.nil
  | cons a l ih =>
    intro out h
    rw [List.mapM_cons] at h
    cases ha : f a with
    | error e => rw [ha] at h; simp at h
    | ok b =>
      rw [ha] at h
      simp only [exceptBind_ok] at h
      cases hl : l.mapM f with
      | error e => rw [hl] at h; simp at h
      | ok bs =>
        rw [hl] at h
        simp at h
        subst h
        exact List.Forall₂.cons ha (ih hl)

/-- A gated flow's entry carries that flow's id, whether permitted or
blocked. -/
lemma flowGate_flow_id {b : Bundle} {facts : FactSet} {verdicts : List Verdict}
    {cvs : List VerdictSummary} {es : EntityStateMap} {persona : String}
    {f : Flow} {gv : Action ⊕ BlockedAction}
    (h : flowGate b facts verdicts cvs es persona f = .ok gv) :
    (∀ a, gv = .inl a → a.flow_id = f.id) ∧
    (∀ blk, gv = .inr blk → blk.flow_id = f.id) := by
  unfold flowGate at h
  cases hst : List.find? (fun st => st.id == f.entry) f.steps with
  | none => rw [hst] at h; simp at h
  | some st =>
    rw [hst] at h
    dsimp only at h
    cases hop : List.find? (fun o => o.id == st.op) b.operations with
    | none => rw [hop] at h; simp at h
    | some op =>
      rw [hop] at h
      dsimp only at h
      cases hg : checkGates b facts verdicts es persona op with
      | error e => rw [hg] at h; simp at h
      | ok pr =>
        obtain ⟨blk, vts⟩ := pr
        rw [hg] at h
        simp only [exceptBind_ok] at h
        cases blk with
        | some reason =>
          simp at h
          subst h
          exact ⟨fun a ha => by simp at ha, fun blk hb => by simp at hb ⊢; rw [← hb]⟩
        | none =>
          simp at h
          subst h
          exact ⟨fun a ha => by simp at ha ⊢; rw [← ha], fun blk hb => by simp at hb⟩

/-- A `Forall₂` relation gives a left partner for every member of the right list. -/
lemma forall₂_mem_right {α β : Type} {R : α → β → Prop} :
    ∀ {l1 : List α} {l2 : List β}, List.Forall₂ R l1 l2 →
      ∀ y ∈ l2, ∃ x, x ∈ l1 ∧ R x y := by
  intro l1 l2 h
  induction h with
  | nil => intro y hy; simp at hy
  | cons h1 h2 ih =>
    intro y hy
    rcases List.mem_cons.mp hy with hya | hyrest
    · subst hya
      exact ⟨_, List.mem_cons_self _ _, h1⟩
    · obtain ⟨x, hx, hr⟩ := ih y hyrest
      exact ⟨x, List.mem_cons_of_mem _ hx, hr⟩

/-- Every blocked entry of the gated list belongs to some flow of the list. -/
lemma gated_right_ids {b : Bundle} {facts : FactSet} {verdicts : List Verdict}
    {cvs : List VerdictSummary} {es : EntityStateMap} {persona : String}
    {flows : List Flow} {gated : List (Action ⊕ BlockedAction)}
    (h : List.Forall₂ (fun fl gv =>
      flowGate b facts verdicts cvs es persona fl = .ok gv) flows gated) :
    ∀ x ∈ gated.filterMap Sum.getRight?, ∃ fl, fl ∈ flows ∧ x.flow_id = fl.id := by
  intro x hx
  rw [List.mem_filterMap] at hx
  obtain ⟨gv, hgv, hx2⟩ := hx
  obtain ⟨fl, hfl, hrel⟩ := forall₂_mem_right h gv hgv
  cases gv with
  | inl a => simp [Sum.getRight?] at hx2
  | inr blk =>
    simp [Sum.getRight?] at hx2
    subst hx2
    exact ⟨fl, hfl, (flowGate_flow_id hrel).2 blk rfl⟩

/-- Every permitted entry of the gated list belongs to some flow of the
list. -/
lemma gated_left_ids {b : Bundle} {facts : FactSet} {verdicts : List Verdict}
    {cvs : List VerdictSummary} {es : EntityStateMap} {persona : String}
    {flows : List Flow} {gated : List (Action ⊕ BlockedAction)}
    (h : List.Forall₂ (fun fl gv =>
      flowGate b facts verdicts cvs es persona fl = .ok gv) flows gated) :
    ∀ x ∈ gated.filterMap Sum.getLeft?, ∃ fl, fl ∈ flows ∧ x.flow_id = fl.id := by
  intro x hx
  rw [List.mem_filterMap] at hx
  obtain ⟨gv, hgv, hx2⟩ := hx
  obtain ⟨fl, hfl, hrel⟩ := forall₂_mem_right h gv hgv
  cases gv with
  | inr blk => simp [Sum.getLeft?] at hx2
  | inl a =>
    simp [Sum.getLeft?] at hx2
    subst hx2
    exact ⟨fl, hfl, (flowGate_flow_id hrel).1 a rfl⟩

/-- With unique flow ids, a blocked flow contributes exactly one
`BlockedAction` to the gated list. -/
lemma gated_filter_right {b : Bundle} {facts : FactSet} {verdicts : List Verdict}
    {cvs : List VerdictSummary} {es : EntityStateMap} {persona : String} :
    ∀ {flows : List Flow} {gated : List (Action ⊕ BlockedAction)},
      List.Forall₂ (fun fl gv =>
        flowGate b facts verdicts cvs es persona fl = .ok gv) flows gated →
      (flows.map Flow.id).Nodup →
      ∀ {f : Flow} {blk : BlockedAction}, f ∈ flows →
        flowGate b facts verdicts cvs es persona f = .ok (.inr blk) →
        (gated.filterMap Sum.getRight?).filter (fun x => x.flow_id == f.id) = [blk] := by
  intro flows gated h
  induction h with
  | nil => intro _ f blk hmem; simp at hmem
  | cons h1 h2 ih =>
    intro hnd f blk hmem hgf
    rename_i fl gv fls gvs
    rw [List.map_cons, List.nodup_cons] at hnd
    obtain ⟨hnotin, hnd'⟩ := hnd
    rcases List.mem_cons.mp hmem with hfe | hfls
    · -- f is the head flow
      subst hfe
      rw [hgf] at h1
      have hgv : gv = .inr blk := by
        have := (by simpa using h1 : Sum.inr blk = gv)
        exact this.symm
      subst hgv
      have hrest : (gvs.filterMap Sum.getRight?).filter
          (fun x => x.flow_id == f.id) = [] := by
        rw [List.filter_eq_nil_iff]
        intro x hx hbeq
        obtain ⟨fl', hfl', hid⟩ := gated_right_ids h2 x hx
        have : x.flow_id = f.id := by simpa using hbeq
        exact hnotin ((hid ▸ this) ▸ List.mem_map_of_mem Flow.id hfl')
      rw [List.filterMap_cons]
      simp only [Sum.getRight?]
      rw [List.filter_cons]
      have : (blk.flow_id == f.id) = true := by
        simp [(flowGate_flow_id hgf).2 blk rfl]
      rw [if_pos this, hrest]
    · -- f is in the tail
      have hid_ne : fl.id ≠ f.id := fun hc =>
        hnotin (hc ▸ List.mem_map_of_mem Flow.id hfls)
      have htail := ih hnd' hfls hgf
      cases gv with
      | inl a =>
        rw [List.filterMap_cons]
        simpa [Sum.getRight?] using htail
      | inr blk0 =>
        rw [List.filterMap_cons]
        simp only [Sum.getRight?]
        rw [List.filter_cons]
        have hdrop : (blk0.flow_id == f.id) = false := by
          have := (flowGate_flow_id h1).2 blk0 rfl
          simp [this, hid_ne]
        rw [if_neg (by simp [hdrop])]
        exact htail

/-- With unique flow ids, a permitted flow contributes exactly one `Action`
to the gated list. -/
lemma gated_filter_left {b : Bundle} {facts : FactSet} {verdicts : List Verdict}
    {cvs : List VerdictSummary} {es : EntityStateMap} {persona : String} :
    ∀ {flows : List Flow} {gated : List (Action ⊕ BlockedAction)},
      List.Forall₂ (fun fl gv =>
        flowGate b facts verdicts cvs es persona fl = .ok gv) flows gated →
      (flows.map Flow.id).Nodup →
      ∀ {f : Flow} {a : Action}, f ∈ flows →
        flowGate b facts verdicts cvs es persona f = .ok (.inl a) →
        (gated.filterMap Sum.getLeft?).filter (fun x => x.flow_id == f.id) = [a] := by
  intro flows gated h
  induction h with
  | nil => intro _ f a hmem; simp at hmem
  | cons h1 h2 ih =>
    intro hnd f a hmem hgf
    rename_i fl gv fls gvs
    rw [List.map_cons, List.nodup_cons] at hnd
    obtain ⟨hnotin, hnd'⟩ := hnd
    rcases List.mem_cons.mp hmem with hfe | hfls
    · subst hfe
      rw [hgf] at h1
      have hgv : gv = .inl a := by
        have := (by simpa using h1 : Sum.inl a = gv)
        exact this.symm
      subst hgv
      have hrest : (gvs.filterMap Sum.getLeft?).filter
          (fun x => x.flow_id == f.id) = [] := by
        rw [List.filter_eq_nil_iff]
        intro x hx hbeq
        obtain ⟨fl', hfl', hid⟩ := gated_left_ids h2 x hx
        have : x.flow_id = f.id := by simpa using hbeq
        exact hnotin ((hid ▸ this) ▸ List.mem_map_of_mem Flow.id hfl')
      rw [List.filterMap_cons]
      simp only [Sum.getLeft?]
      rw [List.filter_cons]
      have : (a.flow_id == f.id) = true := by
        simp [(flowGate_flow_id hgf).1 a rfl]
      rw [if_pos this, hrest]
    · have hid_ne : fl.id ≠ f.id := fun hc =>
        hnotin (hc ▸ List.mem_map_of_mem Flow.id hfls)
      have htail := ih hnd' hfls hgf
      cases gv with
      | inr blk =>
        rw [List.filterMap_cons]
        simpa [Sum.getLeft?] using htail
      | inl a0 =>
        rw [List.filterMap_cons]
        simp only [Sum.getLeft?]
        rw [List.filter_cons]
        have hdrop : (a0.flow_id == f.id) = false := by
          have := (flowGate_flow_id h1).1 a0 rfl
          simp [this, hid_ne]
        rw [if_neg (by simp [hdrop])]
        exact htail

/-- Anatomy of a successful `computeActionSpace` call: one RuleEngine
evaluation, then an independent per-flow gating. -/
lemma computeActionSpace_decomp {b : Bundle} {facts : FactSet}
    {es : EntityStateMap} {persona : String} {out : ActionSpace}
    (h : computeActionSpace b facts es persona = .ok out) :
    ∃ vs gated, evaluate b facts = .ok vs ∧
      List.Forall₂ (fun fl gv =>
        flowGate b facts vs (vs.map toSummary) es persona fl = .ok gv)
        b.flows gated ∧
      out = { persona_id := persona, current_verdicts := vs.map toSummary,
              actions := gated.filterMap Sum.getLeft?,
              blocked_actions := gated.filterMap Sum.getRight? } := by
  unfold computeActionSpace at h
  cases he : evaluate b facts with
  | error e => rw [he] at h; simp at h
  | ok vs =>
    rw [he] at h
    simp only [exceptBind_ok] at h
    cases hm : b.flows.mapM (flowGate b facts vs (vs.map toSummary) es persona) with
    | error e => rw [hm] at h; simp at h
    | ok gated =>
      rw [hm] at h
      simp at h
      exact ⟨vs, gated, rfl, mapM_ok_forall₂ hm, h.symm⟩


/-! ### Helper lemmas about gates and the FlowSimulator -/

/-- Gate 1 (persona authorization) is checked first: an unauthorized persona
short-circuits the gates — the precondition and entity state are never
consulted. -/
lemma checkGates_persona {b : Bundle} {facts : FactSet} {verdicts : List Verdict}
    {es : EntityStateMap} {persona : String} {op : Operation}
    (h : persona ∉ op.allowed_personas) :
    checkGates b facts verdicts es persona op = .ok (some .personaNotAuthorized, []) := by
  unfold checkGates
  rw [if_neg h]

/-- Gate 2 (precondition): an authorized persona with a false precondition is
blocked with `PreconditionNotMet`. -/
lemma checkGates_precondition {b : Bundle} {facts : FactSet}
    {verdicts : List Verdict} {es : EntityStateMap} {persona : String}
    {op : Operation} {fs vts : List String}
    (hp : persona ∈ op.allowed_personas)
    (he : evalExpr facts verdicts op.precondition = .ok (.vbool false, fs, vts)) :
    checkGates b facts verdicts es persona op = .ok (some .preconditionNotMet, vts) := by
  unfold checkGates
  rw [if_pos hp, he]
  simp [asBool]

/-- Gate 3 (entity source state): authorized persona, true precondition, but
some effect's entity is not in that effect's `from` state. -/
lemma checkGates_entity_state {b : Bundle} {facts : FactSet}
    {verdicts : List Verdict} {es : EntityStateMap} {persona : String}
    {op : Operation} {fs vts : List String}
    (hp : persona ∈ op.allowed_personas)
    (he : evalExpr facts verdicts op.precondition = .ok (.vbool true, fs, vts))
    (hs : op.effects.all
      (fun e => currentState b es e.entity_id == some e.from_state) = false) :
    checkGates b facts verdicts es persona op = .ok (some .entityNotInSourceState, vts) := by
  unfold checkGates
  rw [if_pos hp, he]
  simp [asBool, hs]

/-- All three gates pass. -/
lemma checkGates_pass {b : Bundle} {facts : FactSet}
    {verdicts : List Verdict} {es : EntityStateMap} {persona : String}
    {op : Operation} {fs vts : List String}
    (hp : persona ∈ op.allowed_personas)
    (he : evalExpr facts verdicts op.precondition = .ok (.vbool true, fs, vts))
    (hs : op.effects.all
      (fun e => currentState b es e.entity_id == some e.from_state) = true) :
    checkGates b facts verdicts es persona op = .ok (none, vts) := by
  unfold checkGates
  rw [if_pos hp, he]
  simp [asBool, hs]

/-- A flow whose entry operation fails a gate becomes one `BlockedAction`
carrying the flow id and the failed gate's reason. -/
lemma flowGate_blocked {b : Bundle} {facts : FactSet} {verdicts : List Verdict}
    {cvs : List VerdictSummary} {es : EntityStateMap} {persona : String}
    {f : Flow} {st : Step} {op : Operation} {reason : BlockReason} {vts : List String}
    (hst : List.find? (fun st' => st'.id == f.entry) f.steps = some st)
    (hop : List.find? (fun o => o.id == st.op) b.operations = some op)
    (hg : checkGates b facts verdicts es persona op = .ok (some reason, vts)) :
    flowGate b facts verdicts cvs es persona f =
      .ok (.inr { flow_id := f.id, reason := reason }) := by
  unfold flowGate
  rw [hst]
  dsimp only
  rw [hop]
  dsimp only
  rw [hg]
  rfl

/-- A flow whose entry operation passes all three gates becomes an `Action`
carrying the flow id, the entry operation id, the subset of current verdict
summaries the precondition consulted, and affected-entity snapshots. -/
lemma flowGate_action {b : Bundle} {facts : FactSet} {verdicts : List Verdict}
    {cvs : List VerdictSummary} {es : EntityStateMap} {persona : String}
    {f : Flow} {st : Step} {op : Operation} {vts : List String}
    (hst : List.find? (fun st' => st'.id == f.entry) f.steps = some st)
    (hop : List.find? (fun o => o.id == st.op) b.operations = some op)
    (hg : checkGates b facts verdicts es persona op = .ok (none, vts)) :
    flowGate b facts verdicts cvs es persona f =
      .ok (.inl { flow_id := f.id, persona_id := persona,
                  entry_operation_id := op.id,
                  enabling_verdicts := cvs.filter (fun s => s.verdict_type ∈ vts),
                  affected_entities :=
                    ((op.effects.map (·.entity_id)).dedup).map (entitySnapshot b es),
                  description := "" }) := by
  unfold flowGate
  rw [hst]
  dsimp only
  rw [hop]
  dsimp only
  rw [hg]
  rfl

/-- A gate failure at an operation step: record a failure `StepResult`, apply
no effects, follow the step's declared failure transition. The gates are
evaluated against the walk's current working state `ws`. -/
lemma walk_gate_failure {b : Bundle} {facts : FactSet} {verdicts : List Verdict}
    {persona : String} {f : Flow} {fuel : Nat} {stepId : String}
    {ws : EntityStateMap} {path : List StepResult}
    {changes : List EntityStateChange} {st : Step} {op : Operation}
    {reason : BlockReason} {vts : List String}
    (hst : List.find? (fun st' => st'.id == stepId) f.steps = some st)
    (hop : List.find? (fun o => o.id == st.op) b.operations = some op)
    (hg : checkGates b facts verdicts ws persona op = .ok (some reason, vts)) :
    walk b facts verdicts persona f (fuel + 1) stepId ws path changes =
      .ok (st.on_failure_outcome,
           path ++ [{ step_id := st.id, step_type := "OperationStep",
                      result := "failure" }],
           changes) := by
  unfold walk
  rw [hst]
  dsimp only
  rw [hop]
  dsimp only
  rw [hg]
  rfl

/-- A successful operation step ending in a terminal outcome: record a
success `StepResult`, append one `EntityStateChange` per effect, end the
flow with the declared success outcome. -/
lemma walk_success_terminal {b : Bundle} {facts : FactSet}
    {verdicts : List Verdict} {persona : String} {f : Flow} {fuel : Nat}
    {stepId : String} {ws : EntityStateMap} {path : List StepResult}
    {changes : List EntityStateChange} {st : Step} {op : Operation}
    {vts : List String} {outcome : String}
    (hst : List.find? (fun st' => st'.id == stepId) f.steps = some st)
    (hop : List.find? (fun o => o.id == st.op) b.operations = some op)
    (hg : checkGates b facts verdicts ws persona op = .ok (none, vts))
    (hsu : st.success = .terminal outcome) :
    walk b facts verdicts persona f (fuel + 1) stepId ws path changes =
      .ok (outcome,
           path ++ [{ step_id := st.id, step_type := "OperationStep",
                      result := "success" }],
           changes ++ op.effects.map (fun e =>
             { entity_id := e.entity_id, from_state := e.from_state,
               to_state := e.to_state })) := by
  unfold walk
  rw [hst]
  dsimp only
  rw [hop]
  dsimp only
  rw [hg]
  dsimp only [exceptBind_ok]
  rw [hsu]

/-- A successful operation step continuing to a next step: the walk resumes
at the referenced step with the effects applied to the private working
copy. -/
lemma walk_success_next {b : Bundle} {facts : FactSet}
    {verdicts : List Verdict} {persona : String} {f : Flow} {fuel : Nat}
    {stepId : String} {ws : EntityStateMap} {path : List StepResult}
    {changes : List EntityStateChange} {st : Step} {op : Operation}
    {vts : List String} {nid : String}
    (hst : List.find? (fun st' => st'.id == stepId) f.steps = some st)
    (hop : List.find? (fun o => o.id == st.op) b.operations = some op)
    (hg : checkGates b facts verdicts ws persona op = .ok (none, vts))
    (hsu : st.success = .next nid) :
    walk b facts verdicts persona f (fuel + 1) stepId ws path changes =
      walk b facts verdicts persona f fuel nid (applyEffects ws op.effects)
        (path ++ [{ step_id := st.id, step_type := "OperationStep",
                    result := "success" }])
        (changes ++ op.effects.map (fun e =>
          { entity_id := e.entity_id, from_state := e.from_state,
            to_state := e.to_state })) := by
  conv_lhs => unfold walk
  rw [hst]
  dsimp only
  rw [hop]
  dsimp only
  rw [hg]
  dsimp only [exceptBind_ok]
  rw [hsu]

/-- Anatomy of a successful `executeFlow` call: the flow is found, facts are
evaluated once into the shared verdict context, and the walk starts at the
entry step over the caller-supplied entity states. -/
lemma executeFlow_decomp {b : Bundle} {flowId : String} {facts : FactSet}
    {es : EntityStateMap} {persona : String} {out : FlowResult}
    (h : executeFlow b flowId facts es persona = .ok out) :
    ∃ f vs outcome path changes,
      List.find? (fun f' => f'.id == flowId) b.flows = some f ∧
      evaluate b facts = .ok vs ∧
      walk b facts vs persona f maxFlowSteps f.entry es [] [] =
        .ok (outcome, path, changes) ∧
      out = { flow_id := f.id, persona := persona, outcome := outcome,
              path := path, would_transition := changes, verdicts := vs } := by
  unfold executeFlow at h
  cases hf : List.find? (fun f' => f'.id == flowId) b.flows with
  | none => rw [hf] at h; simp at h
  | some f =>
    rw [hf] at h
    dsimp only at h
    cases he : evaluate b facts with
    | error e => rw [he] at h; simp at h
    | ok vs =>
      rw [he] at h
      simp only [exceptBind_ok] at h
      cases hw : walk b facts vs persona f maxFlowSteps f.entry es [] [] with
      | error e => rw [hw] at h; simp at h
      | ok t =>
        obtain ⟨outcome, path, changes⟩ := t
        rw [hw] at h
        simp at h
        exact ⟨f, vs, outcome, path, changes, rfl, rfl, hw, h.symm⟩

/-- A reference to a fact id absent from the FactSet fails with
`MissingFact` naming that fact. -/
lemma evalExpr_factRef_missing {facts : FactSet} {verdicts : List Verdict}
    {fid : String} (h : lookupFact facts fid = none) :
    evalExpr facts verdicts (.factRef fid) = .error (.missingFact fid) := by
  unfold evalExpr
  rw [h]

/-- Entities absent from the caller's map take their declared initial
state. -/
lemma currentState_default {b : Bundle} {es : EntityStateMap} {eid : String}
    (h : List.find? (fun p => p.1 == eid) es = none) :
    currentState b es eid =
      (List.find? (fun e => e.id == eid) b.entities).map (·.initial) := by
  unfold currentState
  rw [h]
  rfl


/-! ### Claim theorems -/

/-- C1: For every bundle and FactSet, a rule whose condition evaluates true
produces exactly one verdict carrying the producing rule id, its stratum, and
the sorted list of fact ids actually referenced by that condition, and a rule
whose condition evaluates false produces no verdict; in particular, for the
basic bundle of Scenario A, evaluate with `is_active:true` yields exactly one
verdict of type `account_active` with rule `check_active`, stratum 0 and
facts_used `["is_active"]`, and evaluate with `is_active:false` yields zero
verdicts. -/
theorem claim_C1_rule_verdict_contract :
    (∀ (b : Bundle) (facts : FactSet) (vs : List Verdict) (r : Rule)
       (lower : List Verdict) (val : Value) (fs vts : List String),
      (b.rules.map Rule.id).Nodup → r ∈ b.rules → evaluate b facts = .ok vs →
      lowerVerdicts b facts r.stratum = .ok lower →
      evalExpr facts lower r.cond = .ok (val, fs, vts) →
      (asBool val = .ok true →
        vs.filter (fun w => w.rule == r.id) =
          [{ vtype := r.verdict_type, payload := r.payload, rule := r.id,
             stratum := r.stratum, facts_used := sortDedup fs,
             verdicts_used := vts.dedup }]) ∧
      (asBool val = .ok false →
        vs.filter (fun w => w.rule == r.id) = [])) ∧
    evaluate scenarioA [("is_active", .vbool true)] =
      .ok [{ vtype := "account_active", payload := .vbool true,
             rule := "check_active", stratum := 0,
             facts_used := ["is_active"], verdicts_used := [] }] ∧
    evaluate scenarioA [("is_active", .vbool false)] = .ok [] := by
  refine ⟨?_, rfl, rfl⟩
  intro b facts vs r lower val fs vts hnd hr hok hlow hexpr
  obtain ⟨lower', hlow', h1, h2⟩ := evaluate_rule_contribution hnd hr hok
  rw [hlow] at hlow'
  have hle : lower = lower' := by simpa using hlow'
  subst hle
  constructor
  · intro htrue
    refine h1 _ ?_
    unfold evalRule
    rw [hexpr]
    simp only [exceptBind_ok]
    rw [htrue]
    simp
  · intro hfalse
    refine h2 ?_
    unfold evalRule
    rw [hexpr]
    simp only [exceptBind_ok]
    rw [hfalse]
    simp

/-- Witness for C1: the Scenario A rule `check_active` at `is_active:true`
contributes exactly its one verdict. -/
theorem claim_C1_rule_verdict_contract_witness :
    ([{ vtype := "account_active", payload := Value.vbool true,
        rule := "check_active", stratum := 0,
        facts_used := ["is_active"], verdicts_used := [] }] : List Verdict).filter
      (fun w => w.rule == "check_active") =
      [{ vtype := "account_active", payload := Value.vbool true,
         rule := "check_active", stratum := 0,
         facts_used := sortDedup ["is_active"],
         verdicts_used := List.dedup ([] : List String) }] :=
  (claim_C1_rule_verdict_contract.1 scenarioA [("is_active", .vbool true)]
    [{ vtype := "account_active", payload := .vbool true,
       rule := "check_active", stratum := 0,
       facts_used := ["is_active"], verdicts_used := [] }]
    { id := "check_active", stratum := 0,
      cond := .cmp (.factRef "is_active") .ceq (.lit (.vbool true)),
      verdict_type := "account_active", payload := .vbool true }
    [] (.vbool true) ["is_active"] []
    (by decide) (by decide) rfl rfl rfl).1 rfl

/-- C2: evaluate is a pure function of (Bundle, facts): identical inputs
yield value-equal VerdictSets, and duplicate verdicts with the same type and
payload from distinct rules are both retained, never deduplicated. -/
theorem claim_C2_determinism_no_dedup :
    (∀ (b : Bundle) (facts : FactSet), evaluate b facts = evaluate b facts) ∧
    evaluate dupBundle [] = .ok
      [{ vtype := "dup_type", payload := .vbool true, rule := "r1",
         stratum := 0, facts_used := [], verdicts_used := [] },
       { vtype := "dup_type", payload := .vbool true, rule := "r2",
         stratum := 0, facts_used := [], verdicts_used := [] }] ∧
    (∃ v1 v2, evaluate dupBundle [] = .ok [v1, v2] ∧ v1.vtype = v2.vtype ∧
      v1.payload = v2.payload ∧ v1.rule ≠ v2.rule) := by
  refine ⟨fun b facts => rfl, rfl, ?_⟩
  exact ⟨_, _, rfl, rfl, rfl, by decide⟩

/-- C4: a reached rule condition referencing a fact id absent from the
FactSet fails the whole evaluate call with `MissingFact`, and no partial
VerdictSet is returned on failure; in particular evaluate of the empty
FactSet on Scenario A fails `MissingFact` for `is_active`. -/
theorem claim_C4_missing_fact_atomic :
    (∀ (facts : FactSet) (verdicts : List Verdict) (fid : String),
      lookupFact facts fid = none →
      evalExpr facts verdicts (.factRef fid) = .error (.missingFact fid)) ∧
    (∀ (b : Bundle) (facts : FactSet) (e : EvalError),
      evaluate b facts = .error e → ∀ vs, evaluate b facts ≠ .ok vs) ∧
    evaluate scenarioA [] = .error (.missingFact "is_active") := by
  refine ⟨fun facts verdicts fid h => evalExpr_factRef_missing h, ?_, rfl⟩
  intro b facts e he vs hok
  rw [he] at hok
  exact Except.noConfusion hok

/-- Witness for C4: the empty FactSet on Scenario A fails `MissingFact`, so
no verdict set at all is returned. -/
theorem claim_C4_missing_fact_atomic_witness :
    evalExpr ([] : FactSet) [] (.factRef "is_active") =
      .error (.missingFact "is_active") ∧
    evaluate scenarioA [] ≠ .ok [] :=
  ⟨claim_C4_missing_fact_atomic.1 [] [] "is_active" rfl,
   claim_C4_missing_fact_atomic.2.1 scenarioA [] (.missingFact "is_active") rfl []⟩


/-- C3: a flow whose entry operation fails at least one gate is reported as
exactly one BlockedAction with exactly one reason, the first failed gate in
the fixed order persona authorization, precondition, entity source state; in
particular an operation failing both the persona and precondition gates is
reported as `PersonaNotAuthorized`, never `PreconditionNotMet`. -/
theorem claim_C3_gate_order :
    (∀ (b : Bundle) (facts : FactSet) (verdicts : List Verdict)
       (es : EntityStateMap) (persona : String) (op : Operation),
      persona ∉ op.allowed_personas →
      checkGates b facts verdicts es persona op =
        .ok (some .personaNotAuthorized, [])) ∧
    (∀ (b : Bundle) (facts : FactSet) (verdicts : List Verdict)
       (es : EntityStateMap) (persona : String) (op : Operation)
       (fs vts : List String),
      persona ∈ op.allowed_personas →
      evalExpr facts verdicts op.precondition = .ok (.vbool false, fs, vts) →
      checkGates b facts verdicts es persona op =
        .ok (some .preconditionNotMet, vts)) ∧
    (∀ (b : Bundle) (facts : FactSet) (verdicts : List Verdict)
       (es : EntityStateMap) (persona : String) (op : Operation)
       (fs vts : List String),
      persona ∈ op.allowed_personas →
      evalExpr facts verdicts op.precondition = .ok (.vbool true, fs, vts) →
      op.effects.all
        (fun e => currentState b es e.entity_id == some e.from_state) = false →
      checkGates b facts verdicts es persona op =
        .ok (some .entityNotInSourceState, vts)) ∧
    (∀ (b : Bundle) (facts : FactSet) (es : EntityStateMap) (persona : String)
       (out : ActionSpace) (f : Flow) (blk : BlockedAction) (vs : List Verdict),
      (b.flows.map Flow.id).Nodup → f ∈ b.flows →
      computeActionSpace b facts es persona = .ok out →
      evaluate b facts = .ok vs →
      flowGate b facts vs (vs.map toSummary) es persona f = .ok (.inr blk) →
      out.blocked_actions.filter (fun x => x.flow_id == f.id) = [blk]) ∧
    (computeActionSpace scenarioA [("is_active", .vbool false)]
        [("Order", "pending")] "guest").map ActionSpace.blocked_actions =
      .ok [{ flow_id := "approval_flow", reason := .personaNotAuthorized }] ∧
    (computeActionSpace scenarioA [("is_active", .vbool false)]
        [("Order", "pending")] "admin").map ActionSpace.blocked_actions =
      .ok [{ flow_id := "approval_flow", reason := .preconditionNotMet }] := by
  refine ⟨fun _ _ _ _ _ _ h => checkGates_persona h,
          fun _ _ _ _ _ _ _ _ hp he => checkGates_precondition hp he,
          fun _ _ _ _ _ _ _ _ hp he hs => checkGates_entity_state hp he hs,
          ?_, rfl, rfl⟩
  intro b facts es persona out f blk vs hnd hf hcas hev hfg
  obtain ⟨vs', gated, hev', hforall, hout⟩ := computeActionSpace_decomp hcas
  rw [hev] at hev'
  have : vs = vs' := by simpa using hev'
  subst this
  rw [hout]
  exact gated_filter_right hforall hnd hf hfg

/-- Witness for C3: Scenario A with a `guest` persona and a false
`is_active` fact fails both the persona and precondition gates and is
reported as `PersonaNotAuthorized`, exactly once. -/
theorem claim_C3_gate_order_witness :
    checkGates scenarioA [("is_active", Value.vbool false)] []
      [("Order", "pending")] "guest"
      { id := "approve_order", allowed_personas := ["admin"],
        precondition := .verdictPresent "account_active",
        effects := [{ entity_id := "Order", from_state := "pending",
                      to_state := "approved" }],
        error_contract := ["precondition_failed"] } =
      .ok (some .personaNotAuthorized, []) ∧
    ({ persona_id := "guest", actions := [],
       current_verdicts := [],
       blocked_actions := [{ flow_id := "approval_flow",
                             reason := .personaNotAuthorized }] } :
        ActionSpace).blocked_actions.filter
      (fun x => x.flow_id == "approval_flow") =
      [{ flow_id := "approval_flow", reason := .personaNotAuthorized }] :=
  ⟨claim_C3_gate_order.1 scenarioA [("is_active", .vbool false)] []
    [("Order", "pending")] "guest" _ (by decide),
   claim_C3_gate_order.2.2.2.1 scenarioA [("is_active", .vbool false)]
    [("Order", "pending")] "guest" _
    { id := "approval_flow", entry := "step_approve",
      snapshot := "at_initiation",
      steps := [{ id := "step_approve", op := "approve_order",
                  persona := "admin",
                  on_failure_outcome := "approval_failed",
                  success := .terminal "order_approved" }] }
    { flow_id := "approval_flow", reason := .personaNotAuthorized } []
    (by decide) (by decide) rfl rfl rfl⟩

/-- C7: a flow whose entry operation passes all three gates becomes an
Action carrying the flow id, the entry operation id, the subset of
current_verdicts that satisfied the precondition gate, and a snapshot of
each affected entity's current state and declared transitions; in
particular, for Scenario A, computeActionSpace with `is_active:true`,
`Order:"pending"`, persona `admin` yields exactly one Action for
`approval_flow` with entry operation `approve_order` and zero
BlockedActions. -/
theorem claim_C7_action_contract :
    (∀ (b : Bundle) (facts : FactSet) (verdicts : List Verdict)
       (cvs : List VerdictSummary) (es : EntityStateMap) (persona : String)
       (f : Flow) (st : Step) (op : Operation) (vts : List String),
      List.find? (fun st' => st'.id == f.entry) f.steps = some st →
      List.find? (fun o => o.id == st.op) b.operations = some op →
      checkGates b facts verdicts es persona op = .ok (none, vts) →
      flowGate b facts verdicts cvs es persona f =
        .ok (.inl { flow_id := f.id, persona_id := persona,
                    entry_operation_id := op.id,
                    enabling_verdicts :=
                      cvs.filter (fun s => s.verdict_type ∈ vts),
                    affected_entities :=
                      ((op.effects.map (·.entity_id)).dedup).map
                        (entitySnapshot b es),
                    description := "" })) ∧
    (∀ (b : Bundle) (facts : FactSet) (es : EntityStateMap) (persona : String)
       (out : ActionSpace) (f : Flow) (a : Action) (vs : List Verdict),
      (b.flows.map Flow.id).Nodup → f ∈ b.flows →
      computeActionSpace b facts es persona = .ok out →
      evaluate b facts = .ok vs →
      flowGate b facts vs (vs.map toSummary) es persona f = .ok (.inl a) →
      out.actions.filter (fun x => x.flow_id == f.id) = [a]) ∧
    computeActionSpace scenarioA [("is_active", .vbool true)]
        [("Order", "pending")] "admin" =
      .ok { persona_id := "admin",
            actions := [{ flow_id := "approval_flow", persona_id := "admin",
                          entry_operation_id := "approve_order",
                          enabling_verdicts :=
                            [{ verdict_type := "account_active",
                               payload := .vbool true,
                               producing_rule := "check_active",
                               stratum := 0 }],
                          affected_entities :=
                            [{ entity_id := "Order",
                               current_state := "pending",
                               possible_transitions := ["approved"] }],
                          description := "" }],
            current_verdicts := [{ verdict_type := "account_active",
                                   payload := .vbool true,
                                   producing_rule := "check_active",
                                   stratum := 0 }],
            blocked_actions := [] } := by
  refine ⟨fun _ _ _ _ _ _ _ _ _ _ hst hop hg => flowGate_action hst hop hg,
          ?_, rfl⟩
  intro b facts es persona out f a vs hnd hf hcas hev hfg
  obtain ⟨vs', gated, hev', hforall, hout⟩ := computeActionSpace_decomp hcas
  rw [hev] at hev'
  have : vs = vs' := by simpa using hev'
  subst this
  rw [hout]
  exact gated_filter_left hforall hnd hf hfg

/-- Witness for C7: the Scenario A entry operation passes all gates, so the
flow gates to the `approve_order` Action. -/
theorem claim_C7_action_contract_witness :
    flowGate scenarioA [("is_active", Value.vbool true)]
      [{ vtype := "account_active", payload := .vbool true,
         rule := "check_active", stratum := 0,
         facts_used := ["is_active"], verdicts_used := [] }]
      [{ verdict_type := "account_active", payload := .vbool true,
         producing_rule := "check_active", stratum := 0 }]
      [("Order", "pending")] "admin"
      { id := "approval_flow", entry := "step_approve",
        snapshot := "at_initiation",
        steps := [{ id := "step_approve", op := "approve_order",
                    persona := "admin",
                    on_failure_outcome := "approval_failed",
                    success := .terminal "order_approved" }] } =
      .ok (.inl
        { flow_id := "approval_flow", persona_id := "admin",
          entry_operation_id := "approve_order",
          enabling_verdicts :=
            ([{ verdict_type := "account_active", payload := .vbool true,
                producing_rule := "check_active", stratum := 0 }] :
              List VerdictSummary).filter
              (fun s => s.verdict_type ∈ ["account_active"]),
          affected_entities :=
            ((([{ entity_id := "Order", from_state := "pending",
                  to_state := "approved" }] : List Effect).map
                (·.entity_id)).dedup).map
              (entitySnapshot scenarioA [("Order", "pending")]),
          description := "" }) :=
  claim_C7_action_contract.1 scenarioA [("is_active", .vbool true)]
    [{ vtype := "account_active", payload := .vbool true,
       rule := "check_active", stratum := 0,
       facts_used := ["is_active"], verdicts_used := [] }]
    [{ verdict_type := "account_active", payload := .vbool true,
       producing_rule := "check_active", stratum := 0 }]
    [("Order", "pending")] "admin" _
    { id := "step_approve", op := "approve_order", persona := "admin",
      on_failure_outcome := "approval_failed",
      success := .terminal "order_approved" }
    { id := "approve_order", allowed_personas := ["admin"],
      precondition := .verdictPresent "account_active",
      effects := [{ entity_id := "Order", from_state := "pending",
                    to_state := "approved" }],
      error_contract := ["precondition_failed"] }
    ["account_active"] rfl rfl rfl

/-- C8: the `current_verdicts` of the ActionSpace returned by
computeActionSpace does not depend on the entityStates argument. -/
theorem claim_C8_current_verdicts_independent :
    ∀ (b : Bundle) (facts : FactSet) (es1 es2 : EntityStateMap)
      (persona : String) (out1 out2 : ActionSpace),
      computeActionSpace b facts es1 persona = .ok out1 →
      computeActionSpace b facts es2 persona = .ok out2 →
      out1.current_verdicts = out2.current_verdicts := by
  intro b facts es1 es2 persona out1 out2 h1 h2
  obtain ⟨vs1, g1, he1, _, ho1⟩ := computeActionSpace_decomp h1
  obtain ⟨vs2, g2, he2, _, ho2⟩ := computeActionSpace_decomp h2
  rw [he1] at he2
  have : vs1 = vs2 := by simpa using he2
  subst this
  rw [ho1, ho2]


/-- Witness for C8: Scenario A with empty versus populated entity states
yields the same `current_verdicts`. -/
theorem claim_C8_current_verdicts_independent_witness :
    ({ persona_id := "admin",
       actions := [{ flow_id := "approval_flow", persona_id := "admin",
                     entry_operation_id := "approve_order",
                     enabling_verdicts := [{ verdict_type := "account_active",
                                             payload := .vbool true,
                                             producing_rule := "check_active",
                                             stratum := 0 }],
                     affected_entities := [{ entity_id := "Order",
                                             current_state := "pending",
                                             possible_transitions := ["approved"] }],
                     description := "" }],
       current_verdicts := [{ verdict_type := "account_active",
                              payload := .vbool true,
                              producing_rule := "check_active",
                              stratum := 0 }],
       blocked_actions := [] } : ActionSpace).current_verdicts =
    ({ persona_id := "admin",
       actions := [{ flow_id := "approval_flow", persona_id := "admin",
                     entry_operation_id := "approve_order",
                     enabling_verdicts := [{ verdict_type := "account_active",
                                             payload := .vbool true,
                                             producing_rule := "check_active",
                                             stratum := 0 }],
                     affected_entities := [{ entity_id := "Order",
                                             current_state := "pending",
                                             possible_transitions := ["approved"] }],
                     description := "" }],
       current_verdicts := [{ verdict_type := "account_active",
                              payload := .vbool true,
                              producing_rule := "check_active",
                              stratum := 0 }],
       blocked_actions := [] } : ActionSpace).current_verdicts :=
  claim_C8_current_verdicts_independent scenarioA
    [("is_active", .vbool true)] [] [("Order", "pending")] "admin" _ _ rfl rfl

/-- C5: executeFlow builds a private working copy of entityStates defaulting
absent entities to their declared initial state, and a successfully gated
operation step applies every effect to that working copy, appending one
EntityStateChange per effect; in particular, for Scenario A, executeFlow of
`approval_flow` with `is_active:true`, empty entity states and persona
`admin` terminates with outcome `order_approved` and would_transition
`[{Order, pending, approved}]`. -/
theorem claim_C5_working_copy_effects :
    (∀ (b : Bundle) (es : EntityStateMap) (eid : String),
      List.find? (fun p => p.1 == eid) es = none →
      currentState b es eid =
        (List.find? (fun e => e.id == eid) b.entities).map (·.initial)) ∧
    (∀ (b : Bundle) (facts : FactSet) (verdicts : List Verdict)
       (persona : String) (f : Flow) (fuel : Nat) (stepId : String)
       (ws : EntityStateMap) (path : List StepResult)
       (changes : List EntityStateChange) (st : Step) (op : Operation)
       (vts : List String) (outcome : String),
      List.find? (fun st' => st'.id == stepId) f.steps = some st →
      List.find? (fun o => o.id == st.op) b.operations = some op →
      checkGates b facts verdicts ws persona op = .ok (none, vts) →
      st.success = .terminal outcome →
      walk b facts verdicts persona f (fuel + 1) stepId ws path changes =
        .ok (outcome,
             path ++ [{ step_id := st.id, step_type := "OperationStep",
                        result := "success" }],
             changes ++ op.effects.map (fun e =>
               { entity_id := e.entity_id, from_state := e.from_state,
                 to_state := e.to_state }))) ∧
    (∀ (b : Bundle) (facts : FactSet) (verdicts : List Verdict)
       (persona : String) (f : Flow) (fuel : Nat) (stepId : String)
       (ws : EntityStateMap) (path : List StepResult)
       (changes : List EntityStateChange) (st : Step) (op : Operation)
       (vts : List String) (nid : String),
      List.find? (fun st' => st'.id == stepId) f.steps = some st →
      List.find? (fun o => o.id == st.op) b.operations = some op →
      checkGates b facts verdicts ws persona op = .ok (none, vts) →
      st.success = .next nid →
      walk b facts verdicts persona f (fuel + 1) stepId ws path changes =
        walk b facts verdicts persona f fuel nid (applyEffects ws op.effects)
          (path ++ [{ step_id := st.id, step_type := "OperationStep",
                      result := "success" }])
          (changes ++ op.effects.map (fun e =>
            { entity_id := e.entity_id, from_state := e.from_state,
              to_state := e.to_state }))) ∧
    executeFlow scenarioA "approval_flow" [("is_active", .vbool true)] []
        "admin" =
      .ok { flow_id := "approval_flow", persona := "admin",
            outcome := "order_approved",
            path := [{ step_id := "step_approve",
                       step_type := "OperationStep", result := "success" }],
            would_transition := [{ entity_id := "Order",
                                   from_state := "pending",
                                   to_state := "approved" }],
            verdicts := [{ vtype := "account_active", payload := .vbool true,
                           rule := "check_active", stratum := 0,
                           facts_used := ["is_active"],
                           verdicts_used := [] }] } :=
  ⟨fun _ _ _ h => currentState_default h,
   fun _ _ _ _ _ _ _ _ _ _ _ _ _ _ hst hop hg hsu =>
     walk_success_terminal hst hop hg hsu,
   fun _ _ _ _ _ _ _ _ _ _ _ _ _ _ hst hop hg hsu =>
     walk_success_next hst hop hg hsu,
   rfl⟩

/-- Witness for C5: the Scenario A entry step, gated against the defaulted
working state, applies its one effect and terminates with
`order_approved`. -/
theorem claim_C5_working_copy_effects_witness :
    currentState scenarioA [] "Order" =
      (List.find? (fun e => e.id == "Order") scenarioA.entities).map
        (·.initial) ∧
    walk scenarioA [("is_active", Value.vbool true)]
      [{ vtype := "account_active", payload := .vbool true,
         rule := "check_active", stratum := 0,
         facts_used := ["is_active"], verdicts_used := [] }]
      "admin"
      { id := "approval_flow", entry := "step_approve",
        snapshot := "at_initiation",
        steps := [{ id := "step_approve", op := "approve_order",
                    persona := "admin",
                    on_failure_outcome := "approval_failed",
                    success := .terminal "order_approved" }] }
      1 "step_approve" [] [] [] =
      .ok ("order_approved",
           [] ++ [{ step_id := "step_approve", step_type := "OperationStep",
                    result := "success" }],
           [] ++ ([{ entity_id := "Order", from_state := "pending",
                     to_state := "approved" }] : List Effect).map (fun e =>
             { entity_id := e.entity_id, from_state := e.from_state,
               to_state := e.to_state })) :=
  ⟨claim_C5_working_copy_effects.1 scenarioA [] "Order" rfl,
   claim_C5_working_copy_effects.2.1 scenarioA
    [("is_active", .vbool true)]
    [{ vtype := "account_active", payload := .vbool true,
       rule := "check_active", stratum := 0,
       facts_used := ["is_active"], verdicts_used := [] }]
    "admin" _ 0 "step_approve" [] [] []
    { id := "step_approve", op := "approve_order", persona := "admin",
      on_failure_outcome := "approval_failed",
      success := .terminal "order_approved" }
    { id := "approve_order", allowed_personas := ["admin"],
      precondition := .verdictPresent "account_active",
      effects := [{ entity_id := "Order", from_state := "pending",
                    to_state := "approved" }],
      error_contract := ["precondition_failed"] }
    ["account_active"] "order_approved" rfl rfl rfl rfl⟩

/-- C6: a gate failure at an operation step of executeFlow (gated against
the current working entity state) records a failure StepResult, applies no
effects, and follows the step's declared failure transition; in particular,
for Scenario A, executeFlow with `is_active:false` ends with outcome
`approval_failed`, as does executeFlow with the Order entity already in
state `approved`. -/
theorem claim_C6_gate_failure_transition :
    (∀ (b : Bundle) (facts : FactSet) (verdicts : List Verdict)
       (persona : String) (f : Flow) (fuel : Nat) (stepId : String)
       (ws : EntityStateMap) (path : List StepResult)
       (changes : List EntityStateChange) (st : Step) (op : Operation)
       (reason : BlockReason) (vts : List String),
      List.find? (fun st' => st'.id == stepId) f.steps = some st →
      List.find? (fun o => o.id == st.op) b.operations = some op →
      checkGates b facts verdicts ws persona op = .ok (some reason, vts) →
      walk b facts verdicts persona f (fuel + 1) stepId ws path changes =
        .ok (st.on_failure_outcome,
             path ++ [{ step_id := st.id, step_type := "OperationStep",
                        result := "failure" }],
             changes)) ∧
    executeFlow scenarioA "approval_flow" [("is_active", .vbool false)] []
        "admin" =
      .ok { flow_id := "approval_flow", persona := "admin",
            outcome := "approval_failed",
            path := [{ step_id := "step_approve",
                       step_type := "OperationStep", result := "failure" }],
            would_transition := [], verdicts := [] } ∧
    executeFlow scenarioA "approval_flow" [("is_active", .vbool true)]
        [("Order", "approved")] "admin" =
      .ok { flow_id := "approval_flow", persona := "admin",
            outcome := "approval_failed",
            path := [{ step_id := "step_approve",
                       step_type := "OperationStep", result := "failure" }],
            would_transition := [],
            verdicts := [{ vtype := "account_active", payload := .vbool true,
                           rule := "check_active", stratum := 0,
                           facts_used := ["is_active"],
                           verdicts_used := [] }] } :=
  ⟨fun _ _ _ _ _ _ _ _ _ _ _ _ _ _ hst hop hg => walk_gate_failure hst hop hg,
   rfl, rfl⟩

/-- Witness for C6: the Scenario A entry step with the Order entity already
`approved` fails the entity-state gate, applies nothing, and terminates with
the declared failure outcome. -/
theorem claim_C6_gate_failure_transition_witness :
    walk scenarioA [("is_active", Value.vbool true)]
      [{ vtype := "account_active", payload := .vbool true,
         rule := "check_active", stratum := 0,
         facts_used := ["is_active"], verdicts_used := [] }]
      "admin"
      { id := "approval_flow", entry := "step_approve",
        snapshot := "at_initiation",
        steps := [{ id := "step_approve", op := "approve_order",
                    persona := "admin",
                    on_failure_outcome := "approval_failed",
                    success := .terminal "order_approved" }] }
      1 "step_approve" [("Order", "approved")] [] [] =
      .ok (Step.on_failure_outcome
             { id := "step_approve", op := "approve_order",
               persona := "admin",
               on_failure_outcome := "approval_failed",
               success := .terminal "order_approved" },
           [] ++ [{ step_id := "step_approve", step_type := "OperationStep",
                    result := "failure" }],
           []) :=
  claim_C6_gate_failure_transition.1 scenarioA
    [("is_active", .vbool true)]
    [{ vtype := "account_active", payload := .vbool true,
       rule := "check_active", stratum := 0,
       facts_used := ["is_active"], verdicts_used := [] }]
    "admin" _ 0 "step_approve" [("Order", "approved")] [] []
    { id := "step_approve", op := "approve_order", persona := "admin",
      on_failure_outcome := "approval_failed",
      success := .terminal "order_approved" }
    { id := "approve_order", allowed_personas := ["admin"],
      precondition := .verdictPresent "account_active",
      effects := [{ entity_id := "Order", from_state := "pending",
                    to_state := "approved" }],
      error_contract := ["precondition_failed"] }
    .entityNotInSourceState ["account_active"] rfl rfl rfl

/-- C9: the Python binding surfaces the two error classes of the taxonomy as
distinct exception types — ValueError for the load-time failures of
from_bundle_json, RuntimeError for the call-time failures of evaluate and
execute_flow — and no failure is coerced into an empty or default result. -/
theorem claim_C9_error_taxonomy :
    (∀ k : ErrorKind, raisedException k = .valueError ↔ k.isLoadTime = true) ∧
    (∀ e : EvalError, raisedException e.kind = .runtimeError) ∧
    evaluate scenarioA [] = .error (.missingFact "is_active") ∧
    executeFlow scenarioA "nonexistent_flow" [("is_active", .vbool true)] []
        "admin" =
      .error (.flowNotFound "nonexistent_flow") ∧
    (∀ (b : Bundle) (flowId : String) (facts : FactSet)
       (es : EntityStateMap) (persona : String) (e : EvalError),
      executeFlow b flowId facts es persona = .error e →
      ∀ out, executeFlow b flowId facts es persona ≠ .ok out) := by
  refine ⟨?_, ?_, rfl, rfl, ?_⟩
  · intro k
    cases k <;> simp [raisedException, ErrorKind.isLoadTime]
  · intro e
    cases e <;> rfl
  · intro b flowId facts es persona e he out hok
    rw [he] at hok
    exact Except.noConfusion hok

/-- Witness for C9: the unknown-flow failure is a real error, never an empty
FlowResult. -/
theorem claim_C9_error_taxonomy_witness :
    executeFlow scenarioA "nonexistent_flow" [("is_active", Value.vbool true)]
      [] "admin" ≠
      .ok { flow_id := "nonexistent_flow", persona := "admin",
            outcome := "", path := [], would_transition := [],
            verdicts := [] } :=
  claim_C9_error_taxonomy.2.2.2.2 scenarioA "nonexistent_flow"
    [("is_active", .vbool true)] [] "admin" (.flowNotFound "nonexistent_flow")
    rfl _

/-- C10: every FlowResult returned by a successful executeFlow call carries a
verdicts field containing the full verdict list of the single RuleEngine
evaluation used as the flow's shared verdict context. -/
theorem claim_C10_flowresult_verdicts :
    (∀ (b : Bundle) (flowId : String) (facts : FactSet)
       (es : EntityStateMap) (persona : String) (out : FlowResult)
       (vs : List Verdict),
      executeFlow b flowId facts es persona = .ok out →
      evaluate b facts = .ok vs →
      out.verdicts = vs) ∧
    (executeFlow scenarioA "approval_flow" [("is_active", .vbool true)] []
        "admin").map FlowResult.verdicts =
      .ok [{ vtype := "account_active", payload := .vbool true,
             rule := "check_active", stratum := 0,
             facts_used := ["is_active"], verdicts_used := [] }] := by
  refine ⟨?_, rfl⟩
  intro b flowId facts es persona out vs h hev
  obtain ⟨f, vs', o, pth, ch, _, hev', _, hout⟩ := executeFlow_decomp h
  rw [hev] at hev'
  have : vs = vs' := by simpa using hev'
  subst this
  rw [hout]

/-- Witness for C10: the Scenario A success FlowResult carries the single
`account_active` verdict of its one evaluation. -/
theorem claim_C10_flowresult_verdicts_witness :
    ({ flow_id := "approval_flow", persona := "admin",
       outcome := "order_approved",
       path := [{ step_id := "step_approve", step_type := "OperationStep",
                  result := "success" }],
       would_transition := [{ entity_id := "Order", from_state := "pending",
                              to_state := "approved" }],
       verdicts := [{ vtype := "account_active", payload := .vbool true,
                      rule := "check_active", stratum := 0,
                      facts_used := ["is_active"],
                      verdicts_used := [] }] } : FlowResult).verdicts =
      [{ vtype := "account_active", payload := .vbool true,
         rule := "check_active", stratum := 0,
         facts_used := ["is_active"], verdicts_used := [] }] :=
  claim_C10_flowresult_verdicts.1 scenarioA "approval_flow"
    [("is_active", .vbool true)] [] "admin" _ _ rfl rfl


end Tenor
